import Mathlib

/-!
# Verification of the used-car-analytics ETL pipeline

Shallow embedding in Lean 4 of the core ETL components of the
`chat-what-car-to-buy` repository (package `usedcaranalytics`):

* `DataTransformer` (`src/usedcaranalytics/pipeline/transformer.py`),
* `ParquetDataLoader` (`src/usedcaranalytics/pipeline/loader.py`),
* `DataStreamer` (`src/usedcaranalytics/pipeline/streamer.py`),
* `RateLimiter` / `backoff_on_rate_limit` (`src/usedcaranalytics/utils/ratelimiter.py`),

together with theorems settling the spec claims about them.

Modelling conventions:

* Python strings are `List Char`; `pyarrow.compute.utf8_length` is list length
  (both count unicode code points).
* Python dicts (records, loader buffers) are insertion-ordered association
  lists.
* Fallible Python code returns `Except String _`, the string naming the Python
  exception that the corresponding source line raises.
* Side effects other than the observable ones (parquet writes, `time.sleep`)
  are dropped; writes and sleeps are collected in explicit event lists.
-/

/-! ## Text primitives used by the transformer

The transformer's regex operations only ever use a handful of concrete
patterns; each is embedded as the corresponding total string function.
-/

/-- Characters matched by the regex class `\s` for the ASCII range
(space, tab, newline, carriage return, vertical tab, form feed). -/
def isSpaceChar (c : Char) : Bool :=
  c = ' ' || c = '\t' || c = '\n' || c = '\r' || c.toNat = 11 || c.toNat = 12

/-- Characters matched by `[^\x00-\x7F]` (non-ASCII code points). -/
def isNonAscii (c : Char) : Bool :=
  0x80 ≤ c.toNat

/-- Replacement of every maximal run of characters satisfying `p` by the
single character `rep`: the effect of Python `re.sub(cls ++ "+", rep, s)`
for a character class `cls`.  `inRun` records whether the previous character
belonged to a run. -/
def collapseRuns (p : Char → Bool) (rep : Char) : Bool → List Char → List Char
  | _, [] => []
  | inRun, c :: cs =>
    if p c then
      if inRun then collapseRuns p rep true cs
      else rep :: collapseRuns p rep true cs
    else c :: collapseRuns p rep false cs

/-- Embedding of `str.replace(r'\n', ' ', regex=True)`: each newline becomes one space. -/
def replaceNewlines (s : List Char) : List Char :=
  s.map (fun c => if c = '\n' then ' ' else c)

/-- Embedding of `str.replace(r'[^\x00-\x7F]+', ' ', regex=True)`: each maximal run of
non-ASCII characters becomes one space. -/
def replaceNonAsciiRuns (s : List Char) : List Char :=
  collapseRuns isNonAscii ' ' false s

/-- Embedding of `str.replace(r'\s+', ' ', regex=True)`: each maximal whitespace run
becomes one space. -/
def collapseSpaces (s : List Char) : List Char :=
  collapseRuns isSpaceChar ' ' false s

/-- Embedding of `str.match(r'^\s*$')`: the string is empty or all whitespace. -/
def isEmptyText (s : List Char) : Bool :=
  s.all isSpaceChar

/-- Embedding of `str.lower()` (ASCII-relevant part). -/
def lowerText (s : List Char) : List Char :=
  s.map Char.toLower

/-- Unanchored substring search: `pyarrow.compute.match_substring_regex`
applied to a regex that is a literal string (the tombstone patterns
`\[deleted\]` and `\[removed\]` only escape literal brackets). -/
def containsSub (pat : List Char) : List Char → Bool
  | [] => pat.isEmpty
  | c :: cs => pat.isPrefixOf (c :: cs) || containsSub pat cs

/-- The default `regex_patterns=(r"\[deleted\]", r"\[removed\]")` of
`DataTransformer.remove_match_from_table`, as literal strings. -/
def tombstonePatterns : List (List Char) :=
  [("[deleted]").toList, ("[removed]").toList]

/-- Union (`|`-join) matching of the default tombstone patterns against one
text field. -/
def matchesTombstone (s : List Char) : Bool :=
  tombstonePatterns.any (fun p => containsSub p s)

/-! ## Data model of the transformer

A batch is a homogeneous pyarrow table: submission rows or comment rows,
with the record type carried by the `data_source` entry of the schema
metadata.  `other tag` stands for a table whose metadata is missing
(`tag = none`) or names an unrecognized record type (`tag = some s`). -/

/-- One row of a submission batch (the columns the transformer touches). -/
structure SubRow where
  submission_id : List Char
  title : List Char
  selftext : List Char
deriving DecidableEq

/-- One row of a comment batch (the columns the transformer touches). -/
structure ComRow where
  comment_id : List Char
  body : List Char
  parent_submission_id : List Char
deriving DecidableEq

/-- A pyarrow table handed to `DataTransformer.transform`. -/
inductive PATable where
  | submission (rows : List SubRow)
  | comment (rows : List ComRow)
  | other (tag : Option String)
deriving DecidableEq

/-- Embedding of `drop_duplicates(key)` of pandas: keep the first row for each key value,
drop every later row whose key was already seen. -/
def dropDuplicates {α K : Type} [DecidableEq K] (key : α → K) (seen : List K) :
    List α → List α
  | [] => []
  | x :: xs =>
    if key x ∈ seen then dropDuplicates key seen xs
    else x :: dropDuplicates key (key x :: seen) xs

namespace DataTransformer

/-- Row mask of `remove_match_from_table` for submissions: the default
tombstone regex matches the title or the selftext. -/
def subTombstoneMask (r : SubRow) : Bool :=
  matchesTombstone r.title || matchesTombstone r.selftext

/-- Row mask of `remove_match_from_table` for comments. -/
def comTombstoneMask (r : ComRow) : Bool :=
  matchesTombstone r.body

/-- Embedding of `remove_match_from_table` with its default arguments: drop rows whose
text fields match a tombstone pattern.  On a table of unknown record type the
source leaves `mask_expr` unassigned and `table.filter(~mask_expr)` raises
`UnboundLocalError`. -/
def remove_match_from_table : PATable → Except String PATable
  | .submission rows => .ok (.submission (rows.filter (fun r => !subTombstoneMask r)))
  | .comment rows => .ok (.comment (rows.filter (fun r => !comTombstoneMask r)))
  | .other _ => .error ("UnboundLocalError: mask_expr")

/-- Row mask of `remove_short_text_from_table` for submissions with the
default thresholds: `utf8_length(title) < 15 or utf8_length(selftext) < 50`. -/
def subShortMask (r : SubRow) : Bool :=
  decide (r.title.length < 15) || decide (r.selftext.length < 50)

/-- Row mask of `remove_short_text_from_table` for comments with the default
threshold: `utf8_length(body) < 15`. -/
def comShortMask (r : ComRow) : Bool :=
  decide (r.body.length < 15)

/-- Embedding of `remove_short_text_from_table` with its default thresholds
(`min_title_length=15`, `min_selftext_length=50`, `min_body_length=15`). -/
def remove_short_text_from_table : PATable → Except String PATable
  | .submission rows => .ok (.submission (rows.filter (fun r => !subShortMask r)))
  | .comment rows => .ok (.comment (rows.filter (fun r => !comShortMask r)))
  | .other _ => .error ("UnboundLocalError: mask_expr")

/-- Embedding of `remove_duplicates_from_df`: `drop_duplicates('submission_id')` on
submission batches, `drop_duplicates('comment_id')` on comment batches.  On
an unknown record type the source reads the unassigned `out_df` and raises
`UnboundLocalError`. -/
def remove_duplicates_from_df : PATable → Except String PATable
  | .submission rows => .ok (.submission (dropDuplicates SubRow.submission_id [] rows))
  | .comment rows => .ok (.comment (dropDuplicates ComRow.comment_id [] rows))
  | .other _ => .error ("UnboundLocalError: out_df")

/-- The three successive regex substitutions of
`replace_newlines_nonascii_from_df` on one text field: newlines to spaces,
non-ASCII runs to a space, whitespace runs collapsed. -/
def normalizeField (s : List Char) : List Char :=
  collapseSpaces (replaceNonAsciiRuns (replaceNewlines s))

/-- Embedding of `replace_newlines_nonascii_from_df`: normalizes `title` and `selftext`
of submissions, `body` of comments.  On an unknown record type the `if`/
`elif` both fail and the copied dataframe is returned unchanged (no error). -/
def replace_newlines_nonascii_from_df : PATable → Except String PATable
  | .submission rows => .ok (.submission (rows.map
      (fun r => { r with title := normalizeField r.title,
                         selftext := normalizeField r.selftext })))
  | .comment rows => .ok (.comment (rows.map
      (fun r => { r with body := normalizeField r.body })))
  | .other t => .ok (.other t)

/-- Embedding of `remove_empty_rows_from_df`: drop rows whose relevant text fields are
empty or whitespace-only (`^\s*$`, any of the scanned columns).  On an
unknown record type the source reads the unassigned `empty_rows` and raises
`UnboundLocalError`. -/
def remove_empty_rows_from_df : PATable → Except String PATable
  | .submission rows => .ok (.submission (rows.filter
      (fun r => !(isEmptyText r.title || isEmptyText r.selftext))))
  | .comment rows => .ok (.comment (rows.filter (fun r => !isEmptyText r.body)))
  | .other _ => .error ("UnboundLocalError: empty_rows")

/-- Embedding of `lowercase_text_from_df`: lowercase the text and id columns
(`submission_id`, `title`, `selftext` resp. `comment_id`, `body`,
`parent_submission_id`).  On an unknown record type the copied dataframe is
returned unchanged (no error). -/
def lowercase_text_from_df : PATable → Except String PATable
  | .submission rows => .ok (.submission (rows.map
      (fun r => { submission_id := lowerText r.submission_id,
                  title := lowerText r.title,
                  selftext := lowerText r.selftext })))
  | .comment rows => .ok (.comment (rows.map
      (fun r => { comment_id := lowerText r.comment_id,
                  body := lowerText r.body,
                  parent_submission_id := lowerText r.parent_submission_id })))
  | .other t => .ok (.other t)

/-- Reading `table.schema.metadata[b'data_source']` at the top of
`transform`: fails when the metadata is absent, returns the tag otherwise. -/
def readDataSource : PATable → Except String String
  | .submission _ => .ok ("submission")
  | .comment _ => .ok ("comment")
  | .other none => .error ("KeyError: data_source")
  | .other (some s) => .ok s

/-- The body of the `try:` block of `DataTransformer.transform`, applying the
stages in the source's order: tombstone pattern removal, short-text removal,
deduplication, newline/non-ASCII normalization, empty-row removal,
lowercasing. -/
def transform_body (t : PATable) : Except String PATable := do
  let _rt ← readDataSource t
  let t1 ← remove_match_from_table t
  let t2 ← remove_short_text_from_table t1
  let t3 ← remove_duplicates_from_df t2
  let t4 ← replace_newlines_nonascii_from_df t3
  let t5 ← remove_empty_rows_from_df t4
  let t6 ← lowercase_text_from_df t5
  pure t6

/-- Embedding of `DataTransformer.transform`: run the stage pipeline; if any stage raises,
log and return the original table unchanged (`except Exception: return
table`). -/
def transform (t : PATable) : PATable :=
  match transform_body t with
  | .ok out => out
  | .error _ => t

end DataTransformer

section TransformerSanityChecks

example :
    DataTransformer.transform (.submission
      [⟨("s1").toList, ("this title is long enough!").toList,
        (String.mk (List.replicate 60 'x')).toList⟩]) =
    .submission
      [⟨("s1").toList, ("this title is long enough!").toList,
        (String.mk (List.replicate 60 'x')).toList⟩] := by
  decide

end TransformerSanityChecks

/-! ## ParquetDataLoader (`pipeline/loader.py`)

The loader's per-type state (`self._buffers`, `self._buffer_sizes`,
`self._batch_counters`) is embedded as insertion-ordered association lists
keyed by the record type; a buffer is an insertion-ordered association list
from column name to the column's value list.  Parquet writes are recorded as
`WriteEvent`s instead of filesystem effects (filename timestamp and dataset
path are dropped; the filename's tag, record type and batch counter are
kept). -/

/-- Lookup in an insertion-ordered association list (Python dict read,
`none` standing for a `KeyError`). -/
def alistGet? {β : Type} (k : String) : List (String × β) → Option β
  | [] => none
  | p :: rest => if p.1 = k then some p.2 else alistGet? k rest

/-- Assignment to an existing key of an insertion-ordered association list
(Python dict write; order and other keys unchanged). -/
def alistSet {β : Type} (k : String) (v : β) : List (String × β) → List (String × β)
  | [] => []
  | p :: rest => if p.1 = k then (p.1, v) :: rest else p :: alistSet k v rest

/-- A scalar value inside a streamed record (the streamed dicts hold strings
and integers in the fields relevant here). -/
inductive JValue where
  | s (v : List Char)
  | i (v : Int)
deriving DecidableEq

/-- A streamed record: an insertion-ordered dict from column name to value. -/
def PyRecord : Type := List (String × JValue)

/-- A loader buffer: column name to list of buffered values; `none` entries
are the `None` placeholders appended for schema columns absent from a
record. -/
def Buffer : Type := List (String × List (Option JValue))

instance : DecidableEq Buffer := by
  unfold Buffer
  infer_instance

/-- Byte contribution of one character inside a `json.dumps` string
(`ensure_ascii=True` default): `"` and `\` are escaped to two bytes, common
control characters to two-byte escapes, other control characters and all
non-ASCII code points to `\uXXXX` escapes (12 bytes for code points beyond
the BMP, which encode as surrogate pairs). -/
def jsonCharBytes (c : Char) : Nat :=
  if c = '"' || c = '\\' then 2
  else if c.toNat < 0x20 then
    if c = '\n' || c = '\t' || c = '\r' || c.toNat = 8 || c.toNat = 12 then 2 else 6
  else if c.toNat < 0x80 then 1
  else if c.toNat < 0x10000 then 6
  else 12

/-- Byte length of a `json.dumps` string literal: two quotes plus the
escaped characters. -/
def jsonStringBytes (s : List Char) : Nat :=
  2 + (s.map jsonCharBytes).sum

/-- Byte length of one serialized record value. -/
def jsonValueBytes : JValue → Nat
  | .s v => jsonStringBytes v
  | .i n => (toString n).length

/-- Embedding of `len(json.dumps(record, separators=(",", ":")).encode("utf-8"))`:
braces, plus `"key":value` per entry, plus one comma between entries. -/
def jsonRecordBytes (rec : PyRecord) : Nat :=
  match rec with
  | [] => 2
  | _ => 2 + (rec.map (fun p => jsonStringBytes p.1.toList + 1 + jsonValueBytes p.2)).sum
           + (rec.length - 1)

/-- Per-record-type entry of the loader's `config` argument (the
`ParquetConfig` namedtuple, keeping the record type and the schema's column
names; the dataset path is a filesystem concern and is dropped). -/
structure ParquetTypeConfig where
  record_type : String
  columns : List String

/-- Duck-typed transformer object passed to the loader: whether it is
callable, whether it has a truthy `.transform` attribute, and the function
applied when it is called. -/
structure PyTransformer where
  callable : Bool
  transform_attr : Bool
  callImpl : Buffer → Buffer

/-- One parquet write performed by `ParquetDataLoader._write`: the filename's
optional tag (`'final'` / `'error'` / none), the record type and batch
counter encoded in the filename, and the table content written (after the
transformer, when one is configured). -/
structure WriteEvent where
  tag : Option String
  record_type : String
  batch_no : Nat
  content : Buffer
deriving DecidableEq

/-- The loader's mutable per-type state. -/
structure LoaderState where
  buffers : List (String × Buffer)
  buffer_sizes : List (String × Nat)
  batch_counters : List (String × Nat)
deriving DecidableEq

/-- One event pulled from the `data_stream` generator: a yielded
`(record_type, record)` tuple, or the generator raising. -/
inductive StreamEvent where
  | item (record_type : String) (record : PyRecord)
  | raise (msg : String)

namespace ParquetDataLoader

/-- Embedding of `_validate_init_args`'s transformer check: a truthy transformer must be
callable or have a truthy `.transform` attribute. -/
def validateTransformer (tr : Option PyTransformer) : Except String Unit :=
  match tr with
  | none => .ok ()
  | some o =>
    if o.callable || o.transform_attr then .ok ()
    else .error ("ValueError: Transformer has no .transform method.")

/-- Embedding of `_validate_init_args`: the config must have exactly two entries,
`target_MB` must be positive, and the transformer check above.  (The
`isinstance` checks on `config` and `target_MB` concern Python types and are
outside this embedding.) -/
def validate_init_args (configLen : Nat) (target_MB : ℚ) (tr : Option PyTransformer) :
    Except String Unit :=
  if configLen ≠ 2 then .error ("ValueError: config must be two namedtuples")
  else if target_MB ≤ 0 then .error ("ValueError: target_MB must be positive")
  else validateTransformer tr

/-- Embedding of `set_target_mb`: `int(target_MB * 2**20)` (truncation; equal to the
floor for the validated positive values). -/
def targetBytesOf (target_MB : ℚ) : Nat :=
  (Int.floor (target_MB * 2 ^ 20)).toNat

/-- Embedding of `_configure_loader`: one empty column list per schema column per record
type, zero byte counters and zero batch counters. -/
def configureLoader (config : List ParquetTypeConfig) : LoaderState :=
  { buffers := config.map (fun c => (c.record_type, c.columns.map (fun col => (col, []))))
    buffer_sizes := config.map (fun c => (c.record_type, 0))
    batch_counters := config.map (fun c => (c.record_type, 0)) }

/-- The buffer append of `load`: `for col in buffer:
buffer[col].append(record.get(col))` — every schema column receives one
entry, a `None` placeholder when the record lacks the column. -/
def appendRecord (buf : Buffer) (rec : PyRecord) : Buffer :=
  buf.map (fun p => (p.1, p.2 ++ [alistGet? p.1 rec]))

/-- Embedding of `any(container for container in buffer.values())`: some column list is
non-empty. -/
def bufferNonEmpty (buf : Buffer) : Bool :=
  buf.any (fun p => !p.2.isEmpty)

/-- Embedding of `_flush`: returns a fresh empty buffer and a zero byte count.  (The
caller is responsible for storing them; see `loadStep`.) -/
def _flush (buf : Buffer) : Buffer × Nat :=
  (buf.map (fun p => (p.1, [])), 0)

/-- Embedding of `_write`: build the table from the buffer, apply the transformer when
one is configured (`self._transformer(pa_table)` — a direct call, raising
`TypeError` when the object is not callable), and write the parquet file,
here recorded as a `WriteEvent`. -/
def _write (tr : Option PyTransformer) (record_type : String) (batch_no : Nat)
    (buf : Buffer) (tag : Option String) : Except String WriteEvent :=
  match tr with
  | none => .ok ⟨tag, record_type, batch_no, buf⟩
  | some o =>
    if o.callable then .ok ⟨tag, record_type, batch_no, o.callImpl buf⟩
    else .error ("TypeError: transformer object is not callable")

/-- One iteration of the `for record_type, record in data_stream` loop of
`load`.  After a threshold-triggered write the source executes
`buffer, self._buffer_sizes[record_type] = self._flush(buffer)`: this
rebinds only the local name `buffer` and resets the byte counter —
`self._buffers[record_type]` keeps pointing at the appended-to dict, so the
loader's buffer is NOT emptied.  The embedding reproduces that: `buffers`
keeps `buf1` after the write. -/
def loadStep (tr : Option PyTransformer) (target_bytes : Nat) (st : LoaderState)
    (record_type : String) (rec : PyRecord) :
    Except String (LoaderState × List WriteEvent) :=
  match alistGet? record_type st.buffers with
  | none => .error ("KeyError: " ++ record_type)
  | some buf0 =>
    match alistGet? record_type st.buffer_sizes with
    | none => .error ("KeyError: " ++ record_type)
    | some sz0 =>
      let buf1 := appendRecord buf0 rec
      let sz1 := sz0 + jsonRecordBytes rec
      let st1 : LoaderState :=
        { st with buffers := alistSet record_type buf1 st.buffers,
                  buffer_sizes := alistSet record_type sz1 st.buffer_sizes }
      if target_bytes ≤ sz1 then
        match alistGet? record_type st.batch_counters with
        | none => .error ("KeyError: " ++ record_type)
        | some cnt =>
          match _write tr record_type cnt buf1 none with
          | .error e => .error e
          | .ok ev =>
            .ok ({ st1 with
                    batch_counters := alistSet record_type (cnt + 1) st.batch_counters,
                    buffer_sizes := alistSet record_type (_flush buf1).2 st1.buffer_sizes },
                 [ev])
      else
        .ok (st1, [])

/-- The final/error flush loops of `load`: iterate `self._buffers.items()`
in order and `_write` every buffer with a non-empty column, tagging the
filename; the byte counter of each written type is reset (again only the
local `buffer` name is rebound, so `buffers` itself is not emptied).  An
exception from `_write` aborts the loop and propagates. -/
def flushAllGo (tr : Option PyTransformer) (tag : String) :
    List (String × Buffer) → LoaderState → List WriteEvent ×
      Except String LoaderState
  | [], st => ([], .ok st)
  | (rt, buf) :: rest, st =>
    if bufferNonEmpty buf then
      match alistGet? rt st.batch_counters with
      | none => ([], .error ("KeyError: " ++ rt))
      | some cnt =>
        match _write tr rt cnt buf (some tag) with
        | .error e => ([], .error e)
        | .ok ev =>
          let st' : LoaderState :=
            { st with buffer_sizes := alistSet rt (_flush buf).2 st.buffer_sizes }
          let (evs, res) := flushAllGo tr tag rest st'
          (ev :: evs, res)
    else flushAllGo tr tag rest st

/-- Flush every non-empty buffer of the current state with the given
filename tag. -/
def flushAll (tr : Option PyTransformer) (tag : String) (st : LoaderState) :
    List WriteEvent × Except String LoaderState :=
  flushAllGo tr tag st.buffers st

/-- The `try:` loop of `load` over the stream's events: on a successful step
continue; a record whose type has no buffer raises `KeyError`, a raising
generator or raising `_write` surfaces its exception; either ends the loop
with the exception message and the state at that point. -/
def mainLoop (tr : Option PyTransformer) (target_bytes : Nat) :
    List StreamEvent → LoaderState → List WriteEvent →
      List WriteEvent × Except (String × LoaderState) LoaderState
  | [], st, acc => (acc, .ok st)
  | .raise msg :: _, st, acc => (acc, .error (msg, st))
  | .item rt rec :: rest, st, acc =>
    match loadStep tr target_bytes st rt rec with
    | .ok (st', evs) => mainLoop tr target_bytes rest st' (acc ++ evs)
    | .error e => (acc, .error (e, st))

/-- Embedding of `ParquetDataLoader.load` (with `partition_by_date=False`): run the
stream loop; on normal exhaustion (`else:`) flush remaining buffers tagged
`'final'` (an exception there propagates unwrapped); on an exception
(`except:`) flush buffers tagged `'error'` and raise
`RuntimeError(f'Exception {e} encountered.')`, unless the error-flush itself
raises, in which case that exception propagates. -/
def load (tr : Option PyTransformer) (target_bytes : Nat) (st0 : LoaderState)
    (events : List StreamEvent) : List WriteEvent × Except String LoaderState :=
  match mainLoop tr target_bytes events st0 [] with
  | (ws, .ok st) =>
    let (evs, res) := flushAll tr ("final") st
    (ws ++ evs, res)
  | (ws, .error (msg, st)) =>
    let (evs, res) := flushAll tr ("error") st
    match res with
    | .ok _ => (ws ++ evs, .error ("RuntimeError: Exception " ++ msg ++ " encountered."))
    | .error e2 => (ws ++ evs, .error e2)

/-- The loader states observable after each processed record of `load`
(including the effect of any flush performed for that record); the trace
stops where the loop stops. -/
def loadTrace (tr : Option PyTransformer) (target_bytes : Nat) :
    List StreamEvent → LoaderState → List LoaderState
  | [], _ => []
  | .raise _ :: _, _ => []
  | .item rt rec :: rest, st =>
    match loadStep tr target_bytes st rt rec with
    | .ok (st', _) => st' :: loadTrace tr target_bytes rest st'
    | .error _ => []

end ParquetDataLoader

section LoaderSanityChecks

/-- Demo config mirroring the repository's two record types with the columns
used by its loader tests. -/
def demoConfig : List ParquetTypeConfig :=
  [⟨("submission"), [("submission_id"), ("title")]⟩,
   ⟨("comment"), [("comment_id"), ("body")]⟩]

example :
    ParquetDataLoader.configureLoader demoConfig =
      { buffers := [(("submission"), [(("submission_id"), []), (("title"), [])]),
                    (("comment"), [(("comment_id"), []), (("body"), [])])],
        buffer_sizes := [(("submission"), 0), (("comment"), 0)],
        batch_counters := [(("submission"), 0), (("comment"), 0)] } := by
  decide

end LoaderSanityChecks

/-! ## DataStreamer (`pipeline/streamer.py`)

The remote provider is abstracted as a search function from (subreddit,
query) to the paginated list of submissions, each submission carrying the
list of comments that iterating `submission.comments` yields after
`replace_more(limit=0)`.  Rate limiting and backoff affect timing only, not
which records are yielded or their order, and are specified separately
(`RateLimiter` / `backoff_on_rate_limit` below). -/

/-- A comment object as the praw API exposes it to `_stream_comments`. -/
structure PrawComment where
  id : String
  body : String
  score : Int
  created_utc : Int
  subreddit_name_prefixed : String
deriving DecidableEq

/-- A submission object as the praw API exposes it, with the comments that
iterating `submission.comments` yields after `replace_more(limit=0)`. -/
structure PrawSubmission where
  id : String
  title : String
  selftext : String
  score : Int
  upvote_ratio : ℚ
  created_utc : Int
  subreddit_name_prefixed : String
  num_comments : Int
  commentsAfterReplaceMore : List PrawComment
deriving DecidableEq

/-- The dict yielded for a comment by `_stream_comments` (tagged
`'comment'`). -/
structure CommentRecord where
  comment_id : String
  body : String
  score : Int
  timestamp : Int
  subreddit : String
  parent_submission_id : String
deriving DecidableEq

/-- The dict yielded for a submission by `stream_search_results` (tagged
`'submission'`). -/
structure SubmissionRecord where
  submission_id : String
  title : String
  selftext : String
  score : Int
  upvote_ratio : ℚ
  timestamp : Int
  subreddit : String
  num_comments : Int
deriving DecidableEq

/-- A `(record_type, record)` tuple yielded by the streamer. -/
inductive StreamedRecord where
  | comment (r : CommentRecord)
  | submission (r : SubmissionRecord)
deriving DecidableEq

namespace DataStreamer

/-- The comment dict built inside `_stream_comments` for one comment of one
parent submission. -/
def commentRecordOf (parent : PrawSubmission) (c : PrawComment) : StreamedRecord :=
  .comment ⟨c.id, c.body, c.score, c.created_utc, c.subreddit_name_prefixed, parent.id⟩

/-- The submission dict built inside `stream_search_results`. -/
def submissionRecordOf (s : PrawSubmission) : StreamedRecord :=
  .submission ⟨s.id, s.title, s.selftext, s.score, s.upvote_ratio, s.created_utc,
               s.subreddit_name_prefixed, s.num_comments⟩

/-- Embedding of `_stream_comments`: fetch the submission's comments (rate-limited,
backoff-wrapped, `replace_more(limit=0)` applied) and yield one comment
record per comment, in the provider's order. -/
def _stream_comments (s : PrawSubmission) : List StreamedRecord :=
  s.commentsAfterReplaceMore.map (commentRecordOf s)

/-- Embedding of `stream_search_results`: fetch the paginated search results for one
(subreddit, query) pair and, for each submission in pagination order, yield
all of its comment records followed by the submission's own record. -/
def stream_search_results (search : String → String → List PrawSubmission)
    (subreddit_name query : String) : List StreamedRecord :=
  (search subreddit_name query).flatMap
    (fun s => _stream_comments s ++ [submissionRecordOf s])

/-- Embedding of `itertools.product(subreddits, queries)`: first component varies
slowest. -/
def itertoolsProduct {α β : Type} (as : List α) (bs : List β) : List (α × β) :=
  as.flatMap (fun a => bs.map (fun b => (a, b)))

/-- Embedding of `DataStreamer.stream`: iterate the cartesian product of subreddits and
queries in configured order and chain the per-pair streams. -/
def stream (search : String → String → List PrawSubmission)
    (subreddits queries : List String) : List StreamedRecord :=
  (itertoolsProduct subreddits queries).flatMap
    (fun p => stream_search_results search p.1 p.2)

end DataStreamer

/-! ## RateLimiter and backoff (`utils/ratelimiter.py`)

`evaluate` is embedded as a fuel-indexed recursion (the source recurses on
itself after sleeping); randomness (`random.randint` buffer draws,
`random.randrange` jitter) and the clock (`time.time()`) are supplied as
oracles, one `EvalEnv` per recursion depth.  `time.sleep` calls are
collected in a list. -/

/-- The provider-reported quota reading `reddit.auth.limits` (entries may be
`None` before the first request). -/
structure AuthLimits where
  remaining : Option Int
  reset_timestamp : Option ℚ
deriving DecidableEq

/-- Mutable state of a `RateLimiter` (`MAX_REQUESTS` may have been lowered
to 100 for a read-only client at construction). -/
structure RLState where
  max_requests : Nat
  total_requests : Nat
  requests_in_window : List ℚ
deriving DecidableEq

/-- Inputs consumed by one recursion level of `evaluate`: the quota reading,
the current clock, and the value drawn by `random.randint(*buffer_range)`. -/
structure EvalEnv where
  limits : AuthLimits
  now : ℚ
  buf_sample : Nat
deriving DecidableEq

/-- Outcome of `evaluate`: normal return or a raised exception, each with
the list of `time.sleep` durations performed. -/
inductive EvalResult where
  | ok (st : RLState) (sleeps : List ℚ)
  | exn (msg : String) (sleeps : List ℚ)
deriving DecidableEq

/-- Python's `random.randrange(lo, hi)`: defined only for integral
arguments (a non-integral argument raises — `ValueError: non-integer arg`
up to Python 3.10, `TypeError` from 3.11).  `sample` is the oracle for the
value returned in the defined case. -/
def pyRandrange (sample : Int) (lo hi : ℚ) : Except String ℚ :=
  if lo.den = 1 ∧ hi.den = 1 then .ok (sample : ℚ)
  else .error ("ValueError: non-integer arg for randrange()")

namespace RateLimiter

/-- Embedding of `PERIOD = 600.0` seconds. -/
def PERIOD : ℚ := 600

/-- Embedding of `_refresh_window`: pop entries from the left of the deque while the
oldest is older than `now - PERIOD`. -/
def refreshWindow (now : ℚ) : List ℚ → List ℚ
  | [] => []
  | t :: ts => if t < now - PERIOD then refreshWindow now ts else t :: ts

/-- Embedding of `RateLimiter.evaluate`.  Per call: read `remaining` from
`reddit.auth.limits` (falling back to the refreshed sliding-window count);
draw `buffer = random.randint(*buffer_range)`; if `remaining - 1 < buffer`,
compute the delay until the window resets (provider reset timestamp, else
`requests_in_window[0] + PERIOD` — an `IndexError` on an empty deque),
clamp at zero, add `random.randrange(0.01, 5.0)` jitter — which in Python
raises, the arguments being non-integral — sleep, and recurse; otherwise
refresh the window, log `now`, and bump `total_requests`.  `fuel` bounds the
recursion depth and `env`/`jitter` supply each level's inputs. -/
def evaluate (env : Nat → EvalEnv) (jitter : Nat → Int) :
    Nat → Nat → RLState → EvalResult
  | 0, _, _ => .exn ("RecursionError: maximum recursion depth exceeded") []
  | fuel + 1, depth, st =>
    let e := env depth
    let rw : Int × List ℚ :=
      match e.limits.remaining with
      | some r => (r, st.requests_in_window)
      | none =>
        let w := refreshWindow e.now st.requests_in_window
        ((st.max_requests : Int) - w.length, w)
    let st1 : RLState := { st with requests_in_window := rw.2 }
    if rw.1 - 1 < (e.buf_sample : Int) then
      let resetTime : Except String ℚ :=
        match e.limits.reset_timestamp with
        | some t => .ok t
        | none =>
          match st1.requests_in_window with
          | [] => .error ("IndexError: deque index out of range")
          | t :: _ => .ok (t + PERIOD)
      match resetTime with
      | .error m => .exn m []
      | .ok rt =>
        let delay := max (rt - e.now) 0
        match pyRandrange (jitter depth) (1 / 100) 5 with
        | .error m => .exn m []
        | .ok j =>
          let d := delay + j
          match evaluate env jitter fuel (depth + 1) st1 with
          | .ok st' sleeps => .ok st' (d :: sleeps)
          | .exn m sleeps => .exn m (d :: sleeps)
    else
      let w2 := refreshWindow e.now st1.requests_in_window
      .ok { st1 with requests_in_window := w2 ++ [e.now],
                     total_requests := st1.total_requests + 1 } []

end RateLimiter

/-- Outcome of a `backoff_on_rate_limit`-wrapped call: the wrapped
function's return value, or the `Exception("Max retries exceeded with
Reddit API.")` raised after the retry budget is spent; each with the list
of `time.sleep` durations performed between attempts. -/
inductive BackoffResult (α : Type) where
  | ok (val : α) (sleeps : List ℚ)
  | fatal (sleeps : List ℚ)
deriving DecidableEq

/-- Prepend one sleep to a backoff outcome. -/
def BackoffResult.withSleep {α : Type} (d : ℚ) : BackoffResult α → BackoffResult α
  | .ok v sleeps => .ok v (d :: sleeps)
  | .fatal sleeps => .fatal (d :: sleeps)

/-- The retry loop of the `wrapper` closure built by
`backoff_on_rate_limit(max_retries, base_delay, cap_delay)`.  `call n` is
the outcome of the `n`-th invocation of the wrapped function (`.error ()`
standing for a raised `prawcore.ResponseException`); `sample n` is the
`random.uniform(0, min(cap_delay, base_delay * 2 ** n))` draw for attempt
`n`.  On failure with `attempt > max_retries` the fatal error is raised
without sleeping; otherwise the loop sleeps the sampled delay, increments
`attempt` and retries. -/
def backoffLoop {α : Type} (call : Nat → Except Unit α) (sample : Nat → ℚ)
    (max_retries : Nat) (attempt : Nat) : BackoffResult α :=
  match call attempt with
  | .ok v => .ok v []
  | .error () =>
    if h : max_retries < attempt then .fatal []
    else BackoffResult.withSleep (sample attempt)
      (backoffLoop call sample max_retries (attempt + 1))
termination_by max_retries + 1 - attempt
decreasing_by
  simp only [not_lt] at h
  omega

/-- Embedding of `backoff_on_rate_limit(...)` applied to a function: run the retry loop
from `attempt = 0`. -/
def backoff_on_rate_limit {α : Type} (max_retries : Nat) (call : Nat → Except Unit α)
    (sample : Nat → ℚ) : BackoffResult α :=
  backoffLoop call sample max_retries 0

/-- Embedding of `delay = random.uniform(0, min(cap_delay, base_delay * 2 ** attempt))`:
the upper bound of the uniform draw for a given attempt. -/
def backoffDelayCap (base_delay cap_delay : ℚ) (attempt : Nat) : ℚ :=
  min cap_delay (base_delay * 2 ^ attempt)

/-! ## Helper lemmas: first-occurrence deduplication -/

instance {ε α : Type} [DecidableEq ε] [DecidableEq α] : DecidableEq (Except ε α) := fun
  | .ok a, .ok b => decidable_of_iff (a = b) (by simp)
  | .ok _, .error _ => isFalse (by simp)
  | .error _, .ok _ => isFalse (by simp)
  | .error e, .error f => decidable_of_iff (e = f) (by simp)

theorem mem_of_mem_dropDuplicates {α K : Type} [DecidableEq K] (key : α → K)
    (seen : List K) (l : List α) (x : α) (hx : x ∈ dropDuplicates key seen l) :
    x ∈ l := by
  induction l generalizing seen with
  | nil => simp [dropDuplicates] at hx
  | cons a as ih =>
    rw [dropDuplicates] at hx
    split at hx
    · exact List.mem_cons_of_mem a (ih _ hx)
    · rcases List.mem_cons.mp hx with h | h
      · exact h ▸ List.mem_cons_self a as
      · exact List.mem_cons_of_mem a (ih _ h)

theorem key_not_seen_of_mem_dropDuplicates {α K : Type} [DecidableEq K] (key : α → K)
    (seen : List K) (l : List α) (x : α) (hx : x ∈ dropDuplicates key seen l) :
    key x ∉ seen := by
  induction l generalizing seen with
  | nil => simp [dropDuplicates] at hx
  | cons a as ih =>
    rw [dropDuplicates] at hx
    split at hx
    · exact ih _ hx
    · rcases List.mem_cons.mp hx with h | h
      · subst h; assumption
      · intro hmem
        exact ih _ h (List.mem_cons_of_mem _ hmem)

theorem dropDuplicates_pairwise {α K : Type} [DecidableEq K] (key : α → K)
    (seen : List K) (l : List α) :
    (dropDuplicates key seen l).Pairwise (fun a b => key a ≠ key b) := by
  induction l generalizing seen with
  | nil => simp [dropDuplicates]
  | cons a as ih =>
    rw [dropDuplicates]
    split
    · exact ih seen
    · refine List.pairwise_cons.mpr ⟨?_, ih (key a :: seen)⟩
      intro b hb heq
      exact key_not_seen_of_mem_dropDuplicates key _ _ b hb (heq ▸ List.mem_cons_self _ _)

theorem dropDuplicates_eq_self {α K : Type} [DecidableEq K] (key : α → K)
    (seen : List K) (l : List α) (hseen : ∀ x ∈ l, key x ∉ seen)
    (hpw : l.Pairwise (fun a b => key a ≠ key b)) :
    dropDuplicates key seen l = l := by
  induction l generalizing seen with
  | nil => rfl
  | cons a as ih =>
    rw [dropDuplicates, if_neg (hseen a (List.mem_cons_self a as))]
    rcases List.pairwise_cons.mp hpw with ⟨hhead, htail⟩
    refine congrArg (a :: ·) (ih (key a :: seen) ?_ htail)
    intro x hx
    simp only [List.mem_cons, not_or]
    exact ⟨fun h => hhead x hx h.symm, hseen x (List.mem_cons_of_mem a hx)⟩

theorem dropDuplicates_idem {α K : Type} [DecidableEq K] (key : α → K)
    (seen : List K) (l : List α) :
    dropDuplicates key seen (dropDuplicates key seen l) = dropDuplicates key seen l :=
  dropDuplicates_eq_self key seen _
    (fun x hx => key_not_seen_of_mem_dropDuplicates key seen l x hx)
    (dropDuplicates_pairwise key seen l)

/-! ## Claim C8: deduplication is idempotent -/

/-- C8: the deduplication stage (`remove_duplicates_from_df`, dropping
duplicates by `submission_id` for posts and by `comment_id` for replies,
first occurrence winning) is idempotent: re-applying it to its own output
returns that output unchanged. -/
theorem c8_remove_duplicates_idempotent :
    ∀ (t t' : PATable),
      DataTransformer.remove_duplicates_from_df t = .ok t' →
      DataTransformer.remove_duplicates_from_df t' = .ok t' := by
  intro t t' h
  cases t with
  | submission rows =>
    simp only [DataTransformer.remove_duplicates_from_df, Except.ok.injEq] at h
    subst h
    simp [DataTransformer.remove_duplicates_from_df, dropDuplicates_idem]
  | comment rows =>
    simp only [DataTransformer.remove_duplicates_from_df, Except.ok.injEq] at h
    subst h
    simp [DataTransformer.remove_duplicates_from_df, dropDuplicates_idem]
  | other tag =>
    simp [DataTransformer.remove_duplicates_from_df] at h

/-- Witness for C8 at a concrete batch with a duplicated `submission_id`. -/
theorem c8_remove_duplicates_idempotent_witness :
    DataTransformer.remove_duplicates_from_df
        (.submission [⟨("a1").toList, ("t one").toList, ("x").toList⟩,
                      ⟨("a1").toList, ("t two").toList, ("y").toList⟩,
                      ⟨("a2").toList, ("t three").toList, ("z").toList⟩]) =
      .ok (.submission [⟨("a1").toList, ("t one").toList, ("x").toList⟩,
                        ⟨("a2").toList, ("t three").toList, ("z").toList⟩]) ∧
    DataTransformer.remove_duplicates_from_df
        (.submission [⟨("a1").toList, ("t one").toList, ("x").toList⟩,
                      ⟨("a2").toList, ("t three").toList, ("z").toList⟩]) =
      .ok (.submission [⟨("a1").toList, ("t one").toList, ("x").toList⟩,
                        ⟨("a2").toList, ("t three").toList, ("z").toList⟩]) :=
  ⟨by decide,
   c8_remove_duplicates_idempotent
     (.submission [⟨("a1").toList, ("t one").toList, ("x").toList⟩,
                   ⟨("a1").toList, ("t two").toList, ("y").toList⟩,
                   ⟨("a2").toList, ("t three").toList, ("z").toList⟩])
     (.submission [⟨("a1").toList, ("t one").toList, ("x").toList⟩,
                   ⟨("a2").toList, ("t three").toList, ("z").toList⟩])
     (by decide)⟩

/-! ## Claim C7: transform fails open -/

/-- C7: whenever a stage of `DataTransformer.transform` raises, `transform`
catches the exception and returns the original input batch unchanged —
transform faults never propagate to the caller. -/
theorem c7_transform_fail_open :
    ∀ (t : PATable) (e : String),
      DataTransformer.transform_body t = .error e →
      DataTransformer.transform t = t := by
  intro t e h
  unfold DataTransformer.transform
  rw [h]

/-- Witness for C7: a table without `data_source` metadata makes the first
stage raise, and `transform` returns it unchanged. -/
theorem c7_transform_fail_open_witness :
    DataTransformer.transform_body (.other none) = .error ("KeyError: data_source") ∧
    DataTransformer.transform (.other none) = .other none :=
  ⟨rfl, c7_transform_fail_open (.other none) ("KeyError: data_source") rfl⟩

/-! ## Claim C2: stage order of `transform`

The source's order is pattern removal, length filtering, deduplication,
normalization, empty-row removal, lowercasing — not the claimed
dedup-first / normalize-before-length order. -/

/-- Modelled from the spec claim: the claimed stage order of `transform` —
(1) deduplicate, (2) tombstone pattern removal, (3) text normalization
(newline/non-ASCII replacement and lowercasing), (4) length filtering —
assembled from the source's own stage functions, with the same fail-open
wrapper. -/
def transform_claimed_order (t : PATable) : PATable :=
  match (do
    let _rt ← DataTransformer.readDataSource t
    let t1 ← DataTransformer.remove_duplicates_from_df t
    let t2 ← DataTransformer.remove_match_from_table t1
    let t3 ← DataTransformer.replace_newlines_nonascii_from_df t2
    let t4 ← DataTransformer.lowercase_text_from_df t3
    let t5 ← DataTransformer.remove_short_text_from_table t4
    pure t5 : Except String PATable) with
  | .ok out => out
  | .error _ => t

/-- A submission whose title is 15 characters only thanks to a run of five
non-ASCII characters: normalization shrinks the title to 11 characters, so
length filtering drops the record if and only if normalization has already
run.  Under the claimed order the batch comes out empty; the source's
`transform` keeps the record. -/
def c2Row : SubRow :=
  ⟨("s one").toList, ("abcdefghij").toList ++ ['é', 'é', 'é', 'é', 'é'],
   (String.mk (List.replicate 60 'x')).toList⟩

/-- Counterexample to C2: at the concrete batch `[c2Row]`, applying the
stages in the claimed order gives a different result than
`DataTransformer.transform` — so `transform` does not apply its stages in
the claimed order (normalization runs after, not before, length
filtering). -/
theorem c2_stage_order_counterexample :
    DataTransformer.transform (.submission [c2Row]) ≠
      transform_claimed_order (.submission [c2Row]) := by
  decide

/-- C2 amended: `transform` applies its cleaning stages in the fixed order
(1) tombstone pattern removal, (2) length filtering, (3) deduplication by
primary identifier, (4) newline/non-ASCII normalization, (5) empty-row
removal, (6) lowercasing — in particular deduplication runs after pattern
and length filtering, and normalization runs after length filtering. -/
theorem c2_amended_stage_order :
    ∀ (subs : List SubRow) (coms : List ComRow),
      DataTransformer.transform (.submission subs) =
        .submission
          (List.map
            (fun r => SubRow.mk (lowerText r.submission_id) (lowerText r.title)
              (lowerText r.selftext))
            (List.filter (fun r => !(isEmptyText r.title || isEmptyText r.selftext))
              (List.map
                (fun r => SubRow.mk r.submission_id
                  (DataTransformer.normalizeField r.title)
                  (DataTransformer.normalizeField r.selftext))
                (dropDuplicates SubRow.submission_id []
                  (List.filter (fun r => !DataTransformer.subShortMask r)
                    (List.filter (fun r => !DataTransformer.subTombstoneMask r) subs)))))) ∧
      DataTransformer.transform (.comment coms) =
        .comment
          (List.map
            (fun r => ComRow.mk (lowerText r.comment_id) (lowerText r.body)
              (lowerText r.parent_submission_id))
            (List.filter (fun r => !isEmptyText r.body)
              (List.map
                (fun r => ComRow.mk r.comment_id (DataTransformer.normalizeField r.body)
                  r.parent_submission_id)
                (dropDuplicates ComRow.comment_id []
                  (List.filter (fun r => !DataTransformer.comShortMask r)
                    (List.filter (fun r => !DataTransformer.comTombstoneMask r) coms)))))) := by
  intro subs coms
  constructor <;> rfl

/-! ## Claim C3: streaming order -/

/-- Stub provider for the 2-channels × 2-queries scenario: each (channel,
query) pair returns one post carrying one reply. -/
def c3Stub (c q : String) : List PrawSubmission :=
  [{ id := c ++ "/" ++ q ++ "/post", title := "t", selftext := "s", score := 1,
     upvote_ratio := 1, created_utc := 0, subreddit_name_prefixed := c,
     num_comments := 1,
     commentsAfterReplaceMore :=
       [{ id := c ++ "/" ++ q ++ "/reply", body := "b", score := 1,
          created_utc := 0, subreddit_name_prefixed := c }] }]

/-- The records the stub scenario must yield for one (channel, query) pair:
the post's reply record first, then the post's own record. -/
def c3PairBlock (c q : String) : List StreamedRecord :=
  [.comment ⟨c ++ "/" ++ q ++ "/reply", "b", 1, 0, c, c ++ "/" ++ q ++ "/post"⟩,
   .submission ⟨c ++ "/" ++ q ++ "/post", "t", "s", 1, 1, 0, c, 1⟩]

/-- C3: `DataStreamer.stream` emits, for each (channel, query) pair in
`itertools.product` order and for each post in provider pagination order,
all of the post's reply records followed by the post's own record; in
particular the 2×2 stub scenario yields exactly four posts and four
replies, each reply immediately preceding its post, pair blocks in
cartesian-product order. -/
theorem c3_stream_order :
    (∀ (search : String → String → List PrawSubmission)
       (subreddits queries : List String),
      DataStreamer.stream search subreddits queries =
        (DataStreamer.itertoolsProduct subreddits queries).flatMap (fun p =>
          (search p.1 p.2).flatMap (fun s =>
            s.commentsAfterReplaceMore.map (DataStreamer.commentRecordOf s)
              ++ [DataStreamer.submissionRecordOf s]))) ∧
    DataStreamer.stream c3Stub [("r1"), ("r2")] [("q1"), ("q2")] =
      c3PairBlock ("r1") ("q1") ++ c3PairBlock ("r1") ("q2")
        ++ c3PairBlock ("r2") ("q1") ++ c3PairBlock ("r2") ("q2") :=
  ⟨fun _ _ _ => rfl, by decide⟩

/-! ## Claim C5: backoff retry exhaustion -/

theorem backoffLoop_fail_eq {α : Type} (call : Nat → Except Unit α) (sample : Nat → ℚ)
    (hfail : ∀ n, call n = .error ()) (m a : Nat) :
    backoffLoop call sample m a =
      .fatal ((List.range' a (m + 1 - a)).map sample) := by
  rw [backoffLoop, hfail a]
  split
  next v h => exact absurd h (by simp)
  next h =>
    split
    next hlt =>
      have h0 : m + 1 - a = 0 := by omega
      rw [h0]
      rfl
    next hge =>
      rw [backoffLoop_fail_eq call sample hfail m (a + 1)]
      have h1 : m + 1 - a = (m + 1 - (a + 1)) + 1 := by omega
      rw [h1, List.range'_succ]
      rfl
termination_by m + 1 - a
decreasing_by omega

/-- C5: when every invocation of the wrapped function raises a recognized
transient exception, the `backoff_on_rate_limit(max_retries, base_delay,
cap_delay)` wrapper sleeps the `uniform(0, min(cap_delay, base_delay *
2 ** attempt))` draw before each retry (one sleep per attempt `0 ..
max_retries`), and once `attempt` exceeds `max_retries` raises the fatal
`Exception("Max retries exceeded with Reddit API.")` — it never returns
normally and never swallows the failure. -/
theorem c5_backoff_gives_up {α : Type} :
    ∀ (call : Nat → Except Unit α) (sample : Nat → ℚ)
      (max_retries : Nat) (base_delay cap_delay : ℚ),
      (∀ n, call n = .error ()) →
      (∀ n, 0 ≤ sample n ∧ sample n ≤ backoffDelayCap base_delay cap_delay n) →
      backoff_on_rate_limit max_retries call sample =
        .fatal ((List.range (max_retries + 1)).map sample) ∧
      ∀ i, i ≤ max_retries →
        0 ≤ sample i ∧ sample i ≤ backoffDelayCap base_delay cap_delay i := by
  intro call sample m base cap hfail hbound
  refine ⟨?_, fun i _ => hbound i⟩
  rw [backoff_on_rate_limit, backoffLoop_fail_eq call sample hfail m 0,
      List.range_eq_range']
  rfl

/-- Witness for C5: three retries, all calls failing, zero jitter draws. -/
theorem c5_backoff_gives_up_witness :
    backoff_on_rate_limit 2 (fun _ => (.error () : Except Unit Nat)) (fun _ => (0 : ℚ)) =
      .fatal ((List.range (2 + 1)).map (fun _ => (0 : ℚ))) :=
  (c5_backoff_gives_up (fun _ => (.error () : Except Unit Nat)) (fun _ => (0 : ℚ)) 2 1 60
    (fun _ => rfl)
    (fun n => ⟨le_refl 0, le_min (by norm_num) (by positivity)⟩)).1

/-! ## Claim C4: rate limiter throttle path -/

/-- The C4 scenario's inputs when the provider reports `remaining = 5` and
no reset timestamp, the clock reads 1, and the `randint` buffer draw is
forced to 5 (`remaining - 1 < buffer` holds). -/
def c4EnvThrottle : Nat → EvalEnv := fun _ => ⟨⟨some 5, none⟩, 1, 5⟩

/-- The C4 scenario's inputs for the follow-up call with `remaining`
high (1000). -/
def c4EnvHigh : Nat → EvalEnv := fun _ => ⟨⟨some 1000, none⟩, 1, 5⟩

/-- A limiter with the default authenticated quota and one logged request at
time 1. -/
def c4State : RLState := ⟨1000, 0, [1]⟩

/-- C4 (divergence witness): in the throttle branch (`remaining - 1 <
buffer`, here 5 − 1 < 5) `evaluate` reaches `delay +=
random.randrange(0.01, 5.0)` and raises — `randrange` rejects non-integral
arguments — so it performs no sleep and never re-evaluates, contradicting
the claimed sleep-then-return behaviour; a call with `remaining` high
returns normally without sleeping, logging the request and bumping
`total_requests`. -/
theorem c4_throttle_branch_raises :
    RateLimiter.evaluate c4EnvThrottle (fun _ => 0) 1 0 c4State =
      .exn ("ValueError: non-integer arg for randrange()") [] ∧
    RateLimiter.evaluate c4EnvHigh (fun _ => 0) 1 0 c4State =
      .ok ⟨1000, 1, [1, 1]⟩ [] := by
  constructor <;>
  · rw [show (1 : Nat) = 0 + 1 from rfl, RateLimiter.evaluate]
    simp only [c4EnvThrottle, c4EnvHigh, c4State, RateLimiter.refreshWindow,
      RateLimiter.PERIOD, pyRandrange]
    norm_num

/-! ## Claim C10: duck-typed transformer validation vs. call -/

/-- C10: `_validate_init_args` accepts a transformer that merely has a
truthy `.transform` attribute without being callable, but `_write` (the
flush path) invokes the transformer by calling it directly, which raises
`TypeError` for such an object: construction succeeds and the first flush
fails. -/
theorem c10_transform_attr_not_callable :
    ∀ (o : PyTransformer), o.transform_attr = true → o.callable = false →
      ParquetDataLoader.validate_init_args 2 128 (some o) = .ok () ∧
      ∀ (rt : String) (cnt : Nat) (buf : Buffer) (tag : Option String),
        ParquetDataLoader._write (some o) rt cnt buf tag =
          .error ("TypeError: transformer object is not callable") := by
  intro o hA hC
  constructor
  · simp [ParquetDataLoader.validate_init_args, ParquetDataLoader.validateTransformer,
          hA, hC]
  · intro rt cnt buf tag
    simp [ParquetDataLoader._write, hC]

/-- Witness for C10 at a non-callable object with a `.transform`
attribute. -/
theorem c10_transform_attr_not_callable_witness :
    ParquetDataLoader.validate_init_args 2 128 (some ⟨false, true, id⟩) = .ok () ∧
    ParquetDataLoader._write (some ⟨false, true, id⟩) ("submission") 0 [] none =
      .error ("TypeError: transformer object is not callable") :=
  ⟨(c10_transform_attr_not_callable ⟨false, true, id⟩ rfl rfl).1,
   (c10_transform_attr_not_callable ⟨false, true, id⟩ rfl rfl).2 ("submission") 0 [] none⟩

/-! ## Claim C1: buffer state after a threshold-triggered flush

The source's `buffer, self._buffer_sizes[record_type] = self._flush(buffer)`
only rebinds the local name `buffer`; the byte counter is reset, but the
loader's `self._buffers[record_type]` keeps every appended value, so a
flushed record is buffered again into the next batch. -/

/-- First streamed submission record of the C1 run. -/
def c1Rec1 : PyRecord :=
  [(("submission_id"), .s (("sid1").toList)), (("title"), .s (("t1").toList))]

/-- Second streamed submission record of the C1 run. -/
def c1Rec2 : PyRecord :=
  [(("submission_id"), .s (("sid2").toList)), (("title"), .s (("t2").toList))]

/-- The submission buffer as written by the first flush: one entry per
column. -/
def c1Buf1 : Buffer :=
  [(("submission_id"), [some (.s (("sid1").toList))]),
   (("title"), [some (.s (("t1").toList))])]

/-- The submission buffer as written by the second flush: it still contains
the already-flushed first record. -/
def c1Buf2 : Buffer :=
  [(("submission_id"), [some (.s (("sid1").toList)), some (.s (("sid2").toList))]),
   (("title"), [some (.s (("t1").toList)), some (.s (("t2").toList))])]

/-- Loader state immediately after the first record's flush. -/
def c1StateAfter1 : LoaderState :=
  { buffers := [(("submission"), c1Buf1),
                (("comment"), [(("comment_id"), []), (("body"), [])])],
    buffer_sizes := [(("submission"), 0), (("comment"), 0)],
    batch_counters := [(("submission"), 1), (("comment"), 0)] }

/-- Loader state immediately after the second record's flush. -/
def c1StateAfter2 : LoaderState :=
  { buffers := [(("submission"), c1Buf2),
                (("comment"), [(("comment_id"), []), (("body"), [])])],
    buffer_sizes := [(("submission"), 0), (("comment"), 0)],
    batch_counters := [(("submission"), 2), (("comment"), 0)] }

/-- C1 (divergence witness): with `target_bytes = 1`, processing a first
record triggers a flush; immediately afterwards the byte counter is reset
to zero — that half of the claim holds — but the loader's buffer is NOT
emptied: its column arrays still have length one.  The second record's
flush therefore re-writes the first record (batch #1 contains both
records). -/
theorem c1_flush_does_not_empty_buffers :
    ParquetDataLoader.loadStep none 1 (ParquetDataLoader.configureLoader demoConfig)
        ("submission") c1Rec1 =
      .ok (c1StateAfter1, [⟨none, ("submission"), 0, c1Buf1⟩]) ∧
    alistGet? ("submission") c1StateAfter1.buffer_sizes = some 0 ∧
    alistGet? ("submission") c1StateAfter1.buffers = some c1Buf1 ∧
    ParquetDataLoader.bufferNonEmpty c1Buf1 = true ∧
    ParquetDataLoader.loadStep none 1 c1StateAfter1 ("submission") c1Rec2 =
      .ok (c1StateAfter2, [⟨none, ("submission"), 1, c1Buf2⟩]) := by
  decide

/-! ## Claim C9: buffers stay parallel arrays -/

/-- All column arrays of a buffer have the same length. -/
def bufferLensOk : Buffer → Bool
  | [] => true
  | p :: rest => rest.all (fun q => q.2.length = p.2.length)

/-- Every record type's buffer has all column arrays of equal length. -/
def stateLensOk (st : LoaderState) : Bool :=
  st.buffers.all (fun p => bufferLensOk p.2)

theorem bufferLensOk_appendRecord (buf : Buffer) (rec : PyRecord) :
    bufferLensOk (ParquetDataLoader.appendRecord buf rec) = bufferLensOk buf := by
  cases buf with
  | nil => rfl
  | cons p rest =>
    simp [ParquetDataLoader.appendRecord, bufferLensOk, List.all_map, Function.comp_def]

theorem alistGet?_mem {β : Type} (k : String) (l : List (String × β)) (v : β)
    (h : alistGet? k l = some v) : (k, v) ∈ l := by
  induction l with
  | nil => simp [alistGet?] at h
  | cons p rest ih =>
    rw [alistGet?] at h
    split at h
    next heq =>
      obtain rfl : p.2 = v := Option.some.injEq _ _ ▸ h
      exact heq ▸ List.mem_cons_self _ _
    next => exact List.mem_cons_of_mem p (ih h)

theorem all_alistSet {β : Type} (P : String × β → Bool) (k : String) (v : β)
    (l : List (String × β)) (hall : l.all P = true) (hv : P (k, v) = true) :
    (alistSet k v l).all P = true := by
  induction l with
  | nil => simp [alistSet]
  | cons p rest ih =>
    rw [List.all_cons, Bool.and_eq_true] at hall
    rw [alistSet]
    split
    next heq =>
      rw [List.all_cons, Bool.and_eq_true]
      exact ⟨heq ▸ hv, hall.2⟩
    next =>
      rw [List.all_cons, Bool.and_eq_true]
      exact ⟨hall.1, ih hall.2⟩

theorem loadStep_buffers_eq (tr : Option PyTransformer) (tb : Nat) (st : LoaderState)
    (rt : String) (rec : PyRecord) (st' : LoaderState) (evs : List WriteEvent)
    (hstep : ParquetDataLoader.loadStep tr tb st rt rec = .ok (st', evs)) :
    ∃ buf, alistGet? rt st.buffers = some buf ∧
      st'.buffers = alistSet rt (ParquetDataLoader.appendRecord buf rec) st.buffers := by
  rw [ParquetDataLoader.loadStep] at hstep
  cases hbuf : alistGet? rt st.buffers with
  | none => rw [hbuf] at hstep; exact absurd hstep (by simp)
  | some buf0 =>
    rw [hbuf] at hstep
    refine ⟨buf0, rfl, ?_⟩
    cases hsz : alistGet? rt st.buffer_sizes with
    | none => rw [hsz] at hstep; exact absurd hstep (by simp)
    | some sz0 =>
      rw [hsz] at hstep
      simp only [] at hstep
      split at hstep
      · cases hcnt : alistGet? rt st.batch_counters with
        | none => rw [hcnt] at hstep; exact absurd hstep (by simp)
        | some cnt =>
          simp only [hcnt] at hstep
          cases hw : ParquetDataLoader._write tr rt cnt
              (ParquetDataLoader.appendRecord buf0 rec) none with
          | error e =>
            simp only [hw] at hstep
            exact absurd hstep (by simp)
          | ok ev =>
            simp only [hw, Except.ok.injEq, Prod.mk.injEq] at hstep
            obtain ⟨h1, _⟩ := hstep
            subst h1
            rfl
      · simp only [Except.ok.injEq, Prod.mk.injEq] at hstep
        obtain ⟨h1, _⟩ := hstep
        subst h1
        rfl

theorem stateLensOk_loadStep (tr : Option PyTransformer) (tb : Nat) (st : LoaderState)
    (rt : String) (rec : PyRecord) (st' : LoaderState) (evs : List WriteEvent)
    (hok : stateLensOk st = true)
    (hstep : ParquetDataLoader.loadStep tr tb st rt rec = .ok (st', evs)) :
    stateLensOk st' = true := by
  obtain ⟨buf, hbuf, heq⟩ := loadStep_buffers_eq tr tb st rt rec st' evs hstep
  have hmem := alistGet?_mem rt st.buffers buf hbuf
  have hbufok : bufferLensOk buf = true :=
    List.all_eq_true.mp hok (rt, buf) hmem
  rw [stateLensOk, heq]
  exact all_alistSet _ rt _ st.buffers hok
    (by rw [bufferLensOk_appendRecord]; exact hbufok)

/-- C9: at every observation point of `load` — after each processed record,
including the effect of any flush — every record type's buffer has column
arrays of equal length (one entry per buffered record); each processed
record appends to every schema column of its type exactly the value
`record.get(col)`, i.e. a null placeholder for columns the record lacks;
and the configured initial state satisfies the invariant. -/
theorem c9_parallel_buffer_arrays :
    ∀ (tr : Option PyTransformer) (tb : Nat) (events : List StreamEvent)
      (st0 : LoaderState),
      stateLensOk st0 = true →
      (∀ st' ∈ ParquetDataLoader.loadTrace tr tb events st0, stateLensOk st' = true) ∧
      (∀ (st : LoaderState) (rt : String) (rec : PyRecord) (st' : LoaderState)
         (evs : List WriteEvent),
         ParquetDataLoader.loadStep tr tb st rt rec = .ok (st', evs) →
         ∃ buf, alistGet? rt st.buffers = some buf ∧
           st'.buffers =
             alistSet rt (buf.map (fun p => (p.1, p.2 ++ [alistGet? p.1 rec])))
               st.buffers) ∧
      (∀ config : List ParquetTypeConfig,
         stateLensOk (ParquetDataLoader.configureLoader config) = true) := by
  intro tr tb events st0 h0
  refine ⟨?_, ?_, ?_⟩
  · induction events generalizing st0 with
    | nil => intro st' h; simp [ParquetDataLoader.loadTrace] at h
    | cons ev rest ih =>
      intro st' hmem
      cases ev with
      | raise msg => simp [ParquetDataLoader.loadTrace] at hmem
      | item rt rec =>
        rw [ParquetDataLoader.loadTrace] at hmem
        cases hstep : ParquetDataLoader.loadStep tr tb st0 rt rec with
        | error e => rw [hstep] at hmem; simp at hmem
        | ok out =>
          rw [hstep] at hmem
          have hnext : stateLensOk out.1 = true :=
            stateLensOk_loadStep tr tb st0 rt rec out.1 out.2 h0 (by rw [hstep])
          rcases List.mem_cons.mp hmem with h | h
          · exact h ▸ hnext
          · exact ih out.1 hnext st' h
  · intro st rt rec st' evs hstep
    exact loadStep_buffers_eq tr tb st rt rec st' evs hstep
  · intro config
    rw [stateLensOk, List.all_eq_true]
    intro p hp
    rw [ParquetDataLoader.configureLoader] at hp
    simp only [List.mem_map] at hp
    obtain ⟨c, _, rfl⟩ := hp
    cases hcols : c.columns with
    | nil => simp [bufferLensOk, hcols]
    | cons col cols =>
      simp [bufferLensOk, hcols, List.all_map]

/-- Record used by the loader witnesses: a streamed submission with both
schema columns present. -/
def recW : PyRecord :=
  [(("submission_id"), .s (("sid1").toList)), (("title"), .s (("t1").toList))]

/-- Loader state after buffering `recW` under a large byte threshold (no
flush triggered). -/
def stateW : LoaderState :=
  { buffers := [(("submission"),
                  [(("submission_id"), [some (.s (("sid1").toList))]),
                   (("title"), [some (.s (("t1").toList))])]),
                (("comment"), [(("comment_id"), []), (("body"), [])])],
    buffer_sizes := [(("submission"), jsonRecordBytes recW), (("comment"), 0)],
    batch_counters := [(("submission"), 0), (("comment"), 0)] }

/-- Witness for C9 on a concrete one-record run. -/
theorem c9_parallel_buffer_arrays_witness :
    stateLensOk stateW = true :=
  (c9_parallel_buffer_arrays none 1000000 [.item ("submission") recW]
      (ParquetDataLoader.configureLoader demoConfig) (by decide)).1
    stateW (by decide)

/-! ## Claim C6: final and error flushes -/

/-- The table content `_write` hands to `pq.write_table`: the buffer's
table, through the transformer when one is configured. -/
def writtenContent (tr : Option PyTransformer) (buf : Buffer) : Buffer :=
  match tr with
  | none => buf
  | some o => o.callImpl buf

/-- A loader transformer argument that never makes `_write` raise: absent,
or callable. -/
def trCallable (tr : Option PyTransformer) : Prop :=
  ∀ o, tr = some o → o.callable = true

theorem _write_ok (tr : Option PyTransformer) (htr : trCallable tr)
    (rt : String) (cnt : Nat) (buf : Buffer) (tag : Option String) :
    ParquetDataLoader._write tr rt cnt buf tag =
      .ok ⟨tag, rt, cnt, writtenContent tr buf⟩ := by
  cases tr with
  | none => rfl
  | some o => simp [ParquetDataLoader._write, writtenContent, htr o rfl]

theorem flushAllGo_spec (tr : Option PyTransformer) (htr : trCallable tr)
    (tag : String) (entries : List (String × Buffer)) (st : LoaderState)
    (h : ∀ p ∈ entries, (alistGet? p.1 st.batch_counters).isSome = true) :
    ∃ stF, ParquetDataLoader.flushAllGo tr tag entries st =
      ((entries.filter (fun p => ParquetDataLoader.bufferNonEmpty p.2)).map
        (fun p => ⟨some tag, p.1, (alistGet? p.1 st.batch_counters).getD 0,
                   writtenContent tr p.2⟩),
       .ok stF) ∧ stF.batch_counters = st.batch_counters ∧ stF.buffers = st.buffers := by
  induction entries generalizing st with
  | nil => exact ⟨st, rfl, rfl, rfl⟩
  | cons p rest ih =>
    obtain ⟨rt, buf⟩ := p
    rw [ParquetDataLoader.flushAllGo]
    by_cases hne : ParquetDataLoader.bufferNonEmpty buf = true
    · obtain ⟨cnt, hcnt⟩ := Option.isSome_iff_exists.mp (h (rt, buf) (List.mem_cons_self _ _))
      have hrest : ∀ q ∈ rest, (alistGet? q.1 st.batch_counters).isSome = true :=
        fun q hq => h q (List.mem_cons_of_mem _ hq)
      obtain ⟨stF, heq, hc, hb⟩ :=
        ih { st with buffer_sizes :=
               alistSet rt (ParquetDataLoader._flush buf).2 st.buffer_sizes }
           hrest
      refine ⟨stF, ?_, hc, hb⟩
      simp only [hne, if_true, hcnt, _write_ok tr htr, heq, List.filter_cons,
        List.map_cons, Option.getD_some]
    · have hfalse : ParquetDataLoader.bufferNonEmpty buf = false :=
        Bool.not_eq_true _ ▸ hne
      obtain ⟨stF, heq, hc, hb⟩ := ih st (fun q hq => h q (List.mem_cons_of_mem _ hq))
      refine ⟨stF, ?_, hc, hb⟩
      simp only [hfalse, if_false, heq, List.filter_cons, Bool.false_eq_true]

/-- C6: on normal stream exhaustion `load` writes exactly one
`'final'`-tagged batch per record type whose buffer is non-empty (in buffer
order, at the type's current batch counter, containing that buffer) and
returns normally; when an exception interrupts stream consumption, `load`
writes exactly one `'error'`-tagged batch per non-empty buffer and raises
the wrapped fatal `RuntimeError` instead of returning. -/
theorem c6_flush_tagging :
    ∀ (tr : Option PyTransformer) (tb : Nat) (st0 stE : LoaderState)
      (events : List StreamEvent) (ws : List WriteEvent),
      trCallable tr →
      (∀ p ∈ stE.buffers, (alistGet? p.1 stE.batch_counters).isSome = true) →
      (ParquetDataLoader.mainLoop tr tb events st0 [] = (ws, .ok stE) →
        ∃ stF, ParquetDataLoader.load tr tb st0 events =
          (ws ++ (stE.buffers.filter (fun p => ParquetDataLoader.bufferNonEmpty p.2)).map
              (fun p => ⟨some ("final"), p.1,
                (alistGet? p.1 stE.batch_counters).getD 0, writtenContent tr p.2⟩),
           .ok stF)) ∧
      (∀ msg, ParquetDataLoader.mainLoop tr tb events st0 [] = (ws, .error (msg, stE)) →
        ParquetDataLoader.load tr tb st0 events =
          (ws ++ (stE.buffers.filter (fun p => ParquetDataLoader.bufferNonEmpty p.2)).map
              (fun p => ⟨some ("error"), p.1,
                (alistGet? p.1 stE.batch_counters).getD 0, writtenContent tr p.2⟩),
           .error ("RuntimeError: Exception " ++ msg ++ " encountered."))) := by
  intro tr tb st0 stE events ws htr hkeys
  constructor
  · intro hmain
    obtain ⟨stF, heq, _, _⟩ := flushAllGo_spec tr htr ("final") stE.buffers stE hkeys
    refine ⟨stF, ?_⟩
    rw [ParquetDataLoader.load, hmain]
    simp only [ParquetDataLoader.flushAll, heq]
  · intro msg hmain
    obtain ⟨stF, heq, _, _⟩ := flushAllGo_spec tr htr ("error") stE.buffers stE hkeys
    rw [ParquetDataLoader.load, hmain]
    simp only [ParquetDataLoader.flushAll, heq]

/-- Witness for C6: a one-record stream flushed `'final'` on exhaustion, and
the same stream followed by a raising generator flushed `'error'` with the
wrapped `RuntimeError`. -/
theorem c6_flush_tagging_witness :
    (∃ stF, ParquetDataLoader.load none 1000000
        (ParquetDataLoader.configureLoader demoConfig) [.item ("submission") recW] =
      ([] ++ (stateW.buffers.filter (fun p => ParquetDataLoader.bufferNonEmpty p.2)).map
          (fun p => ⟨some ("final"), p.1,
            (alistGet? p.1 stateW.batch_counters).getD 0, writtenContent none p.2⟩),
       .ok stF)) ∧
    ParquetDataLoader.load none 1000000
        (ParquetDataLoader.configureLoader demoConfig)
        [.item ("submission") recW, .raise ("boom")] =
      ([] ++ (stateW.buffers.filter (fun p => ParquetDataLoader.bufferNonEmpty p.2)).map
          (fun p => ⟨some ("error"), p.1,
            (alistGet? p.1 stateW.batch_counters).getD 0, writtenContent none p.2⟩),
       .error ("RuntimeError: Exception " ++ ("boom") ++ " encountered.")) :=
  ⟨(c6_flush_tagging none 1000000 (ParquetDataLoader.configureLoader demoConfig) stateW
      [.item ("submission") recW] [] (fun o h => nomatch h) (by decide)).1 (by decide),
   (c6_flush_tagging none 1000000 (ParquetDataLoader.configureLoader demoConfig) stateW
      [.item ("submission") recW, .raise ("boom")] [] (fun o h => nomatch h)
      (by decide)).2 ("boom") (by decide)⟩
